import Mathlib

/-!
Verification of the EO1 device socket client (src/services/eo1-socket.js) of the
eo1-web-controller repository, as a shallow embedding in Lean 4.

The JavaScript class EO1Socket holds a mutable endpoint (host, port, timeout);
its methods encode commands to wire strings and drive a one-connection-per-command
TCP session whose promise settles according to socket lifecycle events.  We embed:

* the endpoint record and its constructor defaults (port 12345, timeout 5000);
* the command encoder (the template literals of displayImage, displayVideo,
  resume, setTag, setBrightness, setOptions), with JavaScript number-to-string
  interpolation modelled by a decimal type JsDec;
* sendCommand as an event-handler machine: the promise executor registers
  handlers for the error, timeout and close events and a connect callback, and
  we fold those handlers (transcribed from the source) over a list of socket
  lifecycle events supplied by the environment;
* checkConnection, setHost, scanNetwork (with the per-host probe handlers) and
  detectSubnet.
-/

/-- A decimal number m / 10 ^ e.  Models a JavaScript number whose template
literal interpolation prints in plain decimal notation (no exponent), as the
brightness, interval and quiet-hour values of this program do.  Values are kept
normalised (e = 0, or m not divisible by 10) so that rendering matches the
shortest-round-trip string JavaScript prints. -/
structure JsDec where
  m : Int
  e : Nat
  deriving DecidableEq, Repr

/-- The string a JavaScript template literal produces for the number m / 10 ^ e:
the integer part, then a point and the fraction part padded to e digits; just
the integer for e = 0.  toString (-1 : Int) = "-1" and render of 5 / 10 ^ 1 is
"0.5", matching the two encodings the spec fixes. -/
def JsDec.render (d : JsDec) : String :=
  if d.e = 0 then toString d.m
  else
    let sign := if d.m < 0 then "-" else ""
    let n := d.m.natAbs
    let p := 10 ^ d.e
    let frac := toString (n % p)
    let pad := String.mk (List.replicate (d.e - frac.length) '0') ++ frac
    sign ++ toString (n / p) ++ "." ++ pad

/-- The typed commands of the protocol, one per sending method of EO1Socket. -/
inductive Command where
  | displayImage (photoId : String)
  | displayVideo (photoId : String)
  | resume
  | setTag (tag : String)
  | setBrightness (level : JsDec)
  | setOptions (brightness interval startHour endHour : JsDec)
  deriving DecidableEq, Repr

/-- The wire string each method passes to sendCommand, transcribed from the
template literals of the source: displayImage sends image,<id>; displayVideo
sends video,<id>; resume sends the literal resume, ; setTag sends tag,<tag>
with the tag interpolated verbatim; setBrightness sends brightness,<level>;
setOptions sends options,<b>,<i>,<s>,<e>. -/
def encode : Command → String
  | .displayImage photoId => "image," ++ photoId
  | .displayVideo photoId => "video," ++ photoId
  | .resume => "resume,"
  | .setTag tag => "tag," ++ tag
  | .setBrightness level => "brightness," ++ level.render
  | .setOptions b i s e =>
      "options," ++ b.render ++ "," ++ i.render ++ "," ++ s.render ++ "," ++ e.render

/-- The mutable per-instance state of the EO1Socket class: host, port, timeout. -/
structure EO1Socket where
  host : String
  port : Nat
  timeout : Nat
  deriving DecidableEq, Repr

/-- The constructor: new EO1Socket(host, port = 12345, timeout = 5000). -/
def EO1Socket.make (host : String) (port : Nat := 12345) (timeout : Nat := 5000) :
    EO1Socket :=
  { host := host, port := port, timeout := timeout }

/-- setHost(host) assigns this.host = host and nothing else. -/
def EO1Socket.setHost (s : EO1Socket) (host : String) : EO1Socket :=
  { s with host := host }

/-- The value checkConnection resolves with: the configured host and port. -/
structure DeviceInfo where
  host : String
  port : Nat
  deriving DecidableEq, Repr

/-- Socket operations a method can perform on the network.  sendCommand emits
setSockTimeout, connectTo, write, scheduleGrace, endSocket and destroySocket;
a method that performs no network I/O emits none. -/
inductive NetAction where
  | setSockTimeout (ms : Nat)
  | connectTo (host : String) (port : Nat)
  | write (line : String)
  | scheduleGrace (ms : Nat)
  | endSocket
  | destroySocket
  deriving DecidableEq, Repr

/-- checkConnection reads this.host and this.port and resolves with them; its
body contains no socket operation and no assignment, so the embedding returns
the state unchanged, an empty action list, and the info record. -/
def EO1Socket.checkConnection (s : EO1Socket) :
    EO1Socket × List NetAction × DeviceInfo :=
  (s, [], { host := s.host, port := s.port })

/-- The JSON body of GET /api/device/status: it calls checkConnection and
answers with ip := info.host and port := info.port (routes/api/device.js). -/
def deviceStatusRoute (s : EO1Socket) :
    EO1Socket × List NetAction × DeviceInfo :=
  let r := s.checkConnection
  (r.1, r.2.1, { host := r.2.2.host, port := r.2.2.port })

/-! ## The sendCommand event machine

sendCommand(command) returns a promise whose executor creates a socket, sets its
timeout, registers handlers for the error, timeout and close events, and calls
connect with a callback that writes command + newline; the write callback
schedules a 100 ms timer whose callback calls socket.end().  We model a run as a
fold of these handlers over the list of lifecycle events the environment
delivers.  A promise settles once: resolve and reject are no-ops on a promise
that is no longer pending. -/

/-- Socket lifecycle events as sendCommand observes them: the connect callback,
the write-flushed callback, the 100 ms grace timer firing, and the close, error
and timeout events. -/
inductive Ev where
  | connected
  | writeFlushed
  | graceElapsed
  | closed
  | errored (msg : String)
  | timedOut
  deriving DecidableEq, Repr

/-- The settlement state of the promise returned by sendCommand. -/
inductive PState where
  | pending
  | resolved (success : Bool) (command : String)
  | rejected (msg : String)
  deriving DecidableEq, Repr

/-- resolve: settles the promise only if it is still pending. -/
def PState.resolve (p : PState) (success : Bool) (command : String) : PState :=
  match p with
  | .pending => .resolved success command
  | q => q

/-- reject: settles the promise only if it is still pending. -/
def PState.reject (p : PState) (msg : String) : PState :=
  match p with
  | .pending => .rejected msg
  | q => q

/-- The run state of one sendCommand invocation: the promise, whether
socket.destroy() has been called, and the socket operations performed so far. -/
structure SendState where
  promise : PState
  destroyed : Bool
  actions : List NetAction
  deriving DecidableEq, Repr

/-- One event dispatch, transcribed handler by handler from sendCommand:
the error handler destroys the socket and rejects with Connection failed and
the error message; the timeout handler destroys and rejects with Connection
timeout; the close handler resolves with success true and the command; the
connect callback writes command + newline; the write callback schedules a
100 ms timer; the timer callback calls socket.end(). -/
def sendStep (command : String) (st : SendState) : Ev → SendState
  | .connected =>
      { st with actions := st.actions ++ [.write (command ++ "\n")] }
  | .writeFlushed =>
      { st with actions := st.actions ++ [.scheduleGrace 100] }
  | .graceElapsed =>
      { st with actions := st.actions ++ [.endSocket] }
  | .closed =>
      { st with promise := st.promise.resolve true command }
  | .errored msg =>
      { st with
        promise := st.promise.reject ("Connection failed: " ++ msg)
        destroyed := true
        actions := st.actions ++ [.destroySocket] }
  | .timedOut =>
      { st with
        promise := st.promise.reject "Connection timeout"
        destroyed := true
        actions := st.actions ++ [.destroySocket] }

/-- The executor runs synchronously at invocation: socket.setTimeout(this.timeout)
then socket.connect(this.port, this.host, ...), reading the endpoint fields of
s at call time.  The promise starts pending. -/
def sendInit (s : EO1Socket) : SendState :=
  { promise := .pending
    destroyed := false
    actions := [.setSockTimeout s.timeout, .connectTo s.host s.port] }

/-- A whole sendCommand invocation: the synchronous executor, then the handlers
folded over the lifecycle events the environment delivers, in order. -/
def sendCommandRun (s : EO1Socket) (command : String) (evs : List Ev) : SendState :=
  evs.foldl (sendStep command) (sendInit s)

/-- The lifecycle event sequences a Node TCP socket can deliver to this handler
set, one constructor per scenario: the clean connect, write-flush, grace-timer,
close sequence; connection refused or unreachable (error then close); the
inactivity timeout before connect; an error after connect (write failure);
the inactivity timeout while awaiting the flush; and the inactivity timeout
after our half-close when the peer never finishes the close.  After destroy or
a completed shutdown the socket emits close, so every family ends in closed. -/
inductive NodeValid : List Ev → Prop
  | clean : NodeValid [.connected, .writeFlushed, .graceElapsed, .closed]
  | connectError (m : String) : NodeValid [.errored m, .closed]
  | connectTimeout : NodeValid [.timedOut, .closed]
  | writeError (m : String) : NodeValid [.connected, .errored m, .closed]
  | flushTimeout : NodeValid [.connected, .writeFlushed, .timedOut, .closed]
  | closeTimeout :
      NodeValid [.connected, .writeFlushed, .graceElapsed, .timedOut, .closed]

/-- Events whose handler settles the promise. -/
def Ev.settles : Ev → Bool
  | .closed => true
  | .errored _ => true
  | .timedOut => true
  | _ => false

/-! ## Network discovery

scanNetwork(subnet = '192.168.1', timeout = 500) builds the 254 addresses
subnet.1 through subnet.254, opens one probe socket per address (all created in
the for loop before any is awaited), and awaits Promise.all.  Each probe's
executor registers three handlers; every one of them calls resolve(), never
reject: the connect handler also pushes the address onto the shared found array
before destroying the socket.  The found array therefore grows in the order the
probes settle, and the environment chooses that order.  We embed the
environment as an outcome per host index and a settlement order, and fold the
probe handlers over the settlement order. -/

/-- How a single probe socket settles: the connect, error or timeout handler. -/
inductive ProbeOutcome where
  | connected
  | errored
  | timedOut
  deriving DecidableEq, Repr

/-- The address string of host i: the template literal subnet.i . -/
def mkIp (subnet : String) (i : Nat) : String :=
  subnet ++ "." ++ toString i

/-- The 254 addresses the for loop of scanNetwork probes: subnet.1 .. subnet.254. -/
def probeIps (subnet : String) : List String :=
  (List.range' 1 254).map (mkIp subnet)

/-- What one probe's settling handler does, transcribed from the source: the
connect handler yields the address to push (then destroys and resolves); the
error and timeout handlers destroy and resolve with nothing pushed.  All three
paths are ok: no handler ever rejects the probe promise. -/
def probeSettle (ip : String) : ProbeOutcome → Except String (Option String)
  | .connected => .ok (some ip)
  | .errored => .ok none
  | .timedOut => .ok none

/-- The body of one settlement inside the Promise.all fold: the connect
handler's push appends the address to found; the error and timeout handlers
leave found as it is; a rejection would abort the fold, but no handler rejects. -/
def scanStep (env : Nat → ProbeOutcome) (subnet : String)
    (found : List String) (i : Nat) : Except String (List String) :=
  match probeSettle (mkIp subnet i) (env i) with
  | .ok (some ip) => .ok (found ++ [ip])
  | .ok none => .ok found
  | .error e => .error e

/-- The whole scanNetwork call: every host of the settlement order settles its
probe, pushing its address when its connect handler fired, and Promise.all then
yields the accumulated found array.  Promise.all would reject if any probe
rejected, which the except layer records; the timeout argument only sets each
probe socket's inactivity timeout (it shapes which outcome the environment
reports, nothing else). -/
def scanNetwork (env : Nat → ProbeOutcome) (order : List Nat)
    (subnet : String := "192.168.1") (timeoutMs : Nat := 500) :
    Except String (List String) :=
  let _ := timeoutMs
  order.foldlM (scanStep env subnet) []

/-! ## Subnet detection

detectSubnet() walks os.networkInterfaces() name by name and interface by
interface, skips an interface when it is internal or its family is not IPv4,
splits its address on the dot, and returns the first three parts joined by dots
as soon as a split has exactly four parts; it returns null when the loops end. -/

/-- One entry of os.networkInterfaces(): the fields detectSubnet reads. -/
structure Iface where
  internal : Bool
  family : String
  address : String
  deriving DecidableEq, Repr

/-- The accumulator pass of a JavaScript-style split on the dot character:
every dot ends the current field, and fields may be empty. -/
def splitDotAux : List Char → List Char → List String
  | [], acc => [String.mk acc.reverse]
  | c :: cs, acc =>
      if c = '.' then String.mk acc.reverse :: splitDotAux cs []
      else splitDotAux cs (c :: acc)

/-- address.split of the dot separator, as JavaScript String.prototype.split
behaves on a one-character separator: the fields between the dots, in order,
empty fields preserved. -/
def splitOnDot (s : String) : List String :=
  splitDotAux s.data []

/-- The inner loop of detectSubnet over the interfaces of one name:
skip internal or non-IPv4 entries, split the address on the dot, and return
part0.part1.part2 when there are exactly four parts, else continue. -/
def scanIfaceList : List Iface → Option String
  | [] => none
  | iface :: rest =>
      if iface.internal || iface.family != "IPv4" then scanIfaceList rest
      else
        let parts := splitOnDot iface.address
        if parts.length == 4 then
          some (parts[0]! ++ "." ++ parts[1]! ++ "." ++ parts[2]!)
        else scanIfaceList rest

/-- detectSubnet: the outer loop over interface names, in object-key order;
null when every inner loop falls through. -/
def detectSubnet : List (String × List Iface) → Option String
  | [] => none
  | (_, l) :: rest =>
      match scanIfaceList l with
      | some s => some s
      | none => detectSubnet rest

/-- Follows the words of the spec, for comparison with detectSubnet: the first
interface in iteration order that is neither internal nor of a family other
than IPv4, regardless of the shape of its address. -/
def specFirstExternalIPv4 : List (String × List Iface) → Option Iface
  | [] => none
  | (_, l) :: rest =>
      match l.find? (fun i => !i.internal && i.family == "IPv4") with
      | some iface => some iface
      | none => specFirstExternalIPv4 rest

/-- Follows the words of the spec: the first three octets of an address,
its /24 prefix. -/
def specPrefix3 (address : String) : String :=
  let parts := splitOnDot address
  parts[0]! ++ "." ++ parts[1]! ++ "." ++ parts[2]!

/-- An interface table is well formed when every non-internal IPv4 interface
carries a dotted-quad address (its split on the dot has four parts): the shape
every real IPv4 address has. -/
def WellFormedIfaces (tbl : List (String × List Iface)) : Prop :=
  ∀ p ∈ tbl, ∀ i ∈ p.2,
    (!i.internal && i.family == "IPv4") = true →
    (splitOnDot i.address).length = 4

/-! ## Lemmas about the sendCommand machine -/

/-- A dispatch never changes a promise that is already settled. -/
theorem sendStep_promise_of_settled (cmd : String) (st : SendState) (e : Ev)
    (h : st.promise ≠ .pending) : (sendStep cmd st e).promise = st.promise := by
  cases e <;> cases hp : st.promise <;>
    simp_all [sendStep, PState.resolve, PState.reject]

/-- A settled promise stays as it is for the rest of the run. -/
theorem foldl_promise_of_settled (cmd : String) (st : SendState) (evs : List Ev)
    (h : st.promise ≠ .pending) :
    (evs.foldl (sendStep cmd) st).promise = st.promise := by
  induction evs generalizing st with
  | nil => rfl
  | cons e tl ih =>
      rw [List.foldl_cons, ih _ ?_, sendStep_promise_of_settled cmd st e h]
      rw [sendStep_promise_of_settled cmd st e h]; exact h

/-- Events whose handlers do not settle the promise leave it unchanged. -/
theorem foldl_promise_of_no_settle (cmd : String) (st : SendState) (evs : List Ev)
    (h : ∀ e ∈ evs, e.settles = false) :
    (evs.foldl (sendStep cmd) st).promise = st.promise := by
  induction evs generalizing st with
  | nil => rfl
  | cons e tl ih =>
      have he := h e (List.mem_cons_self e tl)
      have htl : ∀ x ∈ tl, x.settles = false := fun x hx => h x (List.mem_cons_of_mem e hx)
      rw [List.foldl_cons, ih _ htl]
      cases e <;> simp_all [sendStep, Ev.settles]

/-- Once socket.destroy() has run, the run state records it forever. -/
theorem foldl_destroyed_mono (cmd : String) (st : SendState) (evs : List Ev)
    (h : st.destroyed = true) :
    (evs.foldl (sendStep cmd) st).destroyed = true := by
  induction evs generalizing st with
  | nil => exact h
  | cons e tl ih =>
      rw [List.foldl_cons]
      refine ih _ ?_
      cases e <;> simp_all [sendStep]

/-- The connect targets recorded in an action list, in order. -/
def connectTargets (l : List NetAction) : List (String × Nat) :=
  l.filterMap fun a =>
    match a with
    | .connectTo h p => some (h, p)
    | _ => none

/-- No handler ever calls connect again: the targets of a run are those of the
synchronous executor, whatever events arrive. -/
theorem foldl_connectTargets (cmd : String) (st : SendState) (evs : List Ev) :
    connectTargets (evs.foldl (sendStep cmd) st).actions =
      connectTargets st.actions := by
  induction evs generalizing st with
  | nil => rfl
  | cons e tl ih =>
      rw [List.foldl_cons, ih]
      cases e <;> simp [sendStep, connectTargets, List.filterMap_append]

/-- C1: for every sendCommand invocation under a valid Node event sequence, the
promise resolves — and then as a success outcome carrying the command string —
exactly when the sequence is the clean connect, write-flush, grace, close run;
a connection-establishment error rejects with the Connection failed message,
an inactivity timeout rejects with Connection timeout, and the constructor's
default timeout window is 5000 ms. -/
theorem sendCommand_outcome_characterization
    (s : EO1Socket) (cmd : String) (evs : List Ev) (h : NodeValid evs) :
    (∀ b c, (sendCommandRun s cmd evs).promise = .resolved b c ↔
      (b = true ∧ c = cmd ∧
        evs = [.connected, .writeFlushed, .graceElapsed, .closed]))
    ∧ (∀ m, evs = [.errored m, .closed] →
        (sendCommandRun s cmd evs).promise =
          .rejected ("Connection failed: " ++ m))
    ∧ (evs = [.timedOut, .closed] →
        (sendCommandRun s cmd evs).promise = .rejected "Connection timeout")
    ∧ (∀ hst, (EO1Socket.make hst).timeout = 5000) := by
  rcases h with _ | m | _ | m | _ | _ <;>
    simp [sendCommandRun, sendInit, sendStep, PState.resolve, PState.reject,
      EO1Socket.make]
  all_goals try simp [eq_comm]

/-- C1 witness: the clean run of the resume command resolves with success and
the command string. -/
theorem sendCommand_outcome_characterization_witness :
    NodeValid [Ev.connected, Ev.writeFlushed, Ev.graceElapsed, Ev.closed] ∧
    (sendCommandRun (EO1Socket.make "192.168.1.50") "resume,"
        [Ev.connected, Ev.writeFlushed, Ev.graceElapsed, Ev.closed]).promise =
      .resolved true "resume," :=
  ⟨NodeValid.clean,
    ((sendCommand_outcome_characterization (EO1Socket.make "192.168.1.50")
        "resume," _ NodeValid.clean).1 true "resume,").mpr (by simp)⟩

/-- C2: every successful sendCommand run performed, in order, the write of the
newline-terminated line, the scheduling of the 100 ms grace timer once the
write was flushed, and only then the graceful half-close via socket.end(); it
never called the abrupt socket.destroy(). -/
theorem sendCommand_write_grace_end
    (s : EO1Socket) (cmd : String) (evs : List Ev) (b : Bool) (c : String)
    (h : NodeValid evs)
    (hres : (sendCommandRun s cmd evs).promise = .resolved b c) :
    (sendCommandRun s cmd evs).actions =
      [.setSockTimeout s.timeout, .connectTo s.host s.port,
       .write (cmd ++ "\n"), .scheduleGrace 100, .endSocket]
    ∧ NetAction.destroySocket ∉ (sendCommandRun s cmd evs).actions := by
  rcases h with _ | m | _ | m | _ | _ <;>
    simp_all [sendCommandRun, sendInit, sendStep, PState.resolve, PState.reject]

/-- C2 witness: the clean run of the resume command emits exactly the
write, grace-timer, end sequence after the executor's setTimeout and connect. -/
theorem sendCommand_write_grace_end_witness :
    NodeValid [Ev.connected, Ev.writeFlushed, Ev.graceElapsed, Ev.closed] ∧
    (sendCommandRun (EO1Socket.make "192.168.1.50") "resume,"
        [Ev.connected, Ev.writeFlushed, Ev.graceElapsed, Ev.closed]).actions =
      [.setSockTimeout 5000, .connectTo "192.168.1.50" 12345,
       .write "resume,\n", .scheduleGrace 100, .endSocket] :=
  ⟨NodeValid.clean,
    (sendCommand_write_grace_end (EO1Socket.make "192.168.1.50") "resume,"
        [Ev.connected, Ev.writeFlushed, Ev.graceElapsed, Ev.closed]
        true "resume," NodeValid.clean (by simp [sendCommandRun, sendInit,
          sendStep, PState.resolve])).1⟩

/-- C9: the promise settles exactly once.  When an error or the timeout fires
after any sequence of non-settling events, the socket is destroyed and the
promise is rejected with the corresponding message, and it stays so rejected
whatever arrives afterwards — in particular the close event that follows the
destroy cannot flip the outcome to success. -/
theorem sendCommand_settles_once
    (s : EO1Socket) (cmd : String) (pre post : List Ev)
    (hpre : ∀ e ∈ pre, e.settles = false) :
    ((sendCommandRun s cmd (pre ++ Ev.timedOut :: post)).promise =
        .rejected "Connection timeout"
      ∧ (sendCommandRun s cmd (pre ++ Ev.timedOut :: post)).destroyed = true)
    ∧ ∀ m,
      (sendCommandRun s cmd (pre ++ Ev.errored m :: post)).promise =
          .rejected ("Connection failed: " ++ m)
        ∧ (sendCommandRun s cmd (pre ++ Ev.errored m :: post)).destroyed = true := by
  have hmid : (pre.foldl (sendStep cmd) (sendInit s)).promise = .pending :=
    foldl_promise_of_no_settle cmd (sendInit s) pre hpre
  refine ⟨⟨?_, ?_⟩, fun m => ⟨?_, ?_⟩⟩ <;>
    rw [sendCommandRun, List.foldl_append, List.foldl_cons]
  · rw [foldl_promise_of_settled]
    · simp [sendStep, PState.reject, hmid]
    · simp [sendStep, PState.reject, hmid]
  · exact foldl_destroyed_mono cmd _ post (by simp [sendStep])
  · rw [foldl_promise_of_settled]
    · simp [sendStep, PState.reject, hmid]
    · simp [sendStep, PState.reject, hmid]
  · exact foldl_destroyed_mono cmd _ post (by simp [sendStep])

/-- C9 witness: after a connect, an error mid-flight rejects the promise even
though the close event fires afterwards. -/
theorem sendCommand_settles_once_witness :
    (∀ e ∈ [Ev.connected], e.settles = false) ∧
    (sendCommandRun (EO1Socket.make "192.168.1.50") "resume,"
        ([Ev.connected] ++ Ev.errored "ECONNRESET" :: [Ev.closed])).promise =
      .rejected ("Connection failed: " ++ "ECONNRESET") :=
  ⟨by decide,
    ((sendCommand_settles_once (EO1Socket.make "192.168.1.50") "resume,"
        [Ev.connected] [Ev.closed] (by decide)).2 "ECONNRESET").1⟩

/-- C3: the encoder emits exactly the wire string of the protocol table for
every variant — image,<id> and video,<id>, the literal resume, with its
trailing comma, tag,<tag> with the tag interpolated verbatim and unescaped,
brightness,<level> with 0.5 rendering as brightness,0.5 and the auto sentinel
-1 as brightness,-1, and options,<b>,<i>,<s>,<e>. -/
theorem encode_wire_table :
    (∀ id, encode (.displayImage id) = "image," ++ id)
    ∧ (∀ id, encode (.displayVideo id) = "video," ++ id)
    ∧ encode .resume = "resume,"
    ∧ (∀ tag, encode (.setTag tag) = "tag," ++ tag)
    ∧ (∀ l, encode (.setBrightness l) = "brightness," ++ l.render)
    ∧ encode (.setBrightness ⟨5, 1⟩) = "brightness,0.5"
    ∧ encode (.setBrightness ⟨-1, 0⟩) = "brightness,-1"
    ∧ (∀ b i s e, encode (.setOptions b i s e) =
        "options," ++ b.render ++ "," ++ i.render ++ ","
          ++ s.render ++ "," ++ e.render) := by
  refine ⟨fun id => rfl, fun id => rfl, rfl, fun tag => rfl, fun l => rfl,
    ?_, ?_, fun b i s e => rfl⟩ <;> decide

/-- C8: setHost changes only the host field — port and timeout keep their
values — the next sendCommand invocation connects to the new host, and a run
already started from the old state keeps connecting to the host it captured at
invocation, whatever events arrive during or after the update. -/
theorem setHost_updates_only_host
    (s : EO1Socket) (h cmd : String) (evs evs' : List Ev) :
    ((s.setHost h).host = h
      ∧ (s.setHost h).port = s.port
      ∧ (s.setHost h).timeout = s.timeout)
    ∧ connectTargets (sendCommandRun (s.setHost h) cmd evs).actions =
        [(h, s.port)]
    ∧ connectTargets (sendCommandRun s cmd evs').actions =
        [(s.host, s.port)] := by
  refine ⟨⟨rfl, rfl, rfl⟩, ?_, ?_⟩ <;>
    rw [sendCommandRun, foldl_connectTargets] <;>
    rfl

/-- C10: checkConnection performs no network I/O — its action list is empty —
returns exactly the configured host and port, and leaves the endpoint state
untouched; the device status route reports those same two fields. -/
theorem checkConnection_no_io (s : EO1Socket) :
    s.checkConnection = (s, [], { host := s.host, port := s.port })
    ∧ deviceStatusRoute s = (s, [], { host := s.host, port := s.port }) :=
  ⟨rfl, rfl⟩

/-! ## Lemmas about scanNetwork -/

/-- The fold underlying scanNetwork never rejects, and yields the accumulator
followed by the addresses of the hosts whose connect handler fired, in
settlement order. -/
theorem scanStep_foldlM (env : Nat → ProbeOutcome) (subnet : String) :
    ∀ (order : List Nat) (acc : List String),
      order.foldlM (scanStep env subnet) acc =
        .ok (acc ++ (order.filter fun k => env k == .connected).map (mkIp subnet)) := by
  intro order
  induction order with
  | nil => intro acc; simp [pure, Except.pure]
  | cons i tl ih =>
      intro acc
      rw [List.foldlM_cons]
      rcases h : env i with _ | _ | _ <;>
        simp [scanStep, probeSettle, h, ih, Bind.bind, Except.bind]

/-- scanNetwork resolves with the found array: the accumulated addresses of the
hosts whose probes connected, in settlement order. -/
theorem scanNetwork_found (env : Nat → ProbeOutcome) (order : List Nat)
    (subnet : String) (timeoutMs : Nat) :
    scanNetwork env order subnet timeoutMs =
      .ok ((order.filter fun k => env k == .connected).map (mkIp subnet)) :=
  scanStep_foldlM env subnet order []

set_option maxRecDepth 8000 in
/-- The decimal strings of the scanned host indices, evaluated. -/
theorem natString_range_eval :
    (List.range' 1 254).map (fun n : Nat => toString n) = ["1", "2", "3", "4", "5", "6", "7", "8", "9", "10", "11", "12", "13", "14", "15", "16", "17", "18", "19", "20", "21", "22", "23", "24", "25", "26", "27", "28", "29", "30", "31", "32", "33", "34", "35", "36", "37", "38", "39", "40", "41", "42", "43", "44", "45", "46", "47", "48", "49", "50", "51", "52", "53", "54", "55", "56", "57", "58", "59", "60", "61", "62", "63", "64", "65", "66", "67", "68", "69", "70", "71", "72", "73", "74", "75", "76", "77", "78", "79", "80", "81", "82", "83", "84", "85", "86", "87", "88", "89", "90", "91", "92", "93", "94", "95", "96", "97", "98", "99", "100", "101", "102", "103", "104", "105", "106", "107", "108", "109", "110", "111", "112", "113", "114", "115", "116", "117", "118", "119", "120", "121", "122", "123", "124", "125", "126", "127", "128", "129", "130", "131", "132", "133", "134", "135", "136", "137", "138", "139", "140", "141", "142", "143", "144", "145", "146", "147", "148", "149", "150", "151", "152", "153", "154", "155", "156", "157", "158", "159", "160", "161", "162", "163", "164", "165", "166", "167", "168", "169", "170", "171", "172", "173", "174", "175", "176", "177", "178", "179", "180", "181", "182", "183", "184", "185", "186", "187", "188", "189", "190", "191", "192", "193", "194", "195", "196", "197", "198", "199", "200", "201", "202", "203", "204", "205", "206", "207", "208", "209", "210", "211", "212", "213", "214", "215", "216", "217", "218", "219", "220", "221", "222", "223", "224", "225", "226", "227", "228", "229", "230", "231", "232", "233", "234", "235", "236", "237", "238", "239", "240", "241", "242", "243", "244", "245", "246", "247", "248", "249", "250", "251", "252", "253", "254"] := by rfl

set_option maxRecDepth 2000 in
/-- Distinct host indices of the scanned range render to distinct decimal
strings. -/
theorem natString_inj_on_range :
    ∀ i ∈ List.range' 1 254, ∀ j ∈ List.range' 1 254,
      toString i = toString j → i = j := by
  have hnd : ((List.range' 1 254).map (fun n : Nat => toString n)).Nodup := by
    rw [natString_range_eval]
    decide
  intro i hi j hj hij
  exact List.inj_on_of_nodup_map hnd hi hj hij

/-- Distinct host indices of the scanned range give distinct addresses: the
subnet prefix cancels on the left and the rendered index decides. -/
theorem mkIp_inj_on_range (subnet : String) (i j : Nat)
    (hi : i ∈ List.range' 1 254) (hj : j ∈ List.range' 1 254)
    (h : mkIp subnet i = mkIp subnet j) : i = j := by
  have hd : subnet.data ++ (".".data ++ (toString i).data)
      = subnet.data ++ (".".data ++ (toString j).data) := by
    have hc := congrArg String.data h
    simpa [mkIp, String.data_append, List.append_assoc] using hc
  exact natString_inj_on_range i hi j hj
    (String.ext (List.append_cancel_left (List.append_cancel_left hd)))

/-- C4: when the settlement order covers the 254 probes once each, scanNetwork
probes exactly the addresses subnet.1 through subnet.254, resolves only once
every probe has settled — with the found array accumulated over the whole
settlement sequence — silently discards errors and timeouts, and records the
address of a scanned host exactly when that host's connect succeeded. -/
theorem scanNetwork_probes_and_records
    (env : Nat → ProbeOutcome) (order : List Nat) (subnet : String)
    (timeoutMs : Nat) (hperm : order.Perm (List.range' 1 254)) :
    (probeIps subnet).length = 254
    ∧ probeIps subnet = (List.range' 1 254).map (mkIp subnet)
    ∧ scanNetwork env order subnet timeoutMs =
        .ok ((order.filter fun k => env k == .connected).map (mkIp subnet))
    ∧ ∀ i ∈ List.range' 1 254,
        (mkIp subnet i ∈
            (order.filter fun k => env k == .connected).map (mkIp subnet)
          ↔ env i = .connected) := by
  refine ⟨by simp [probeIps], rfl, scanNetwork_found env order subnet timeoutMs, ?_⟩
  intro i hi
  constructor
  · intro hmem
    rcases List.mem_map.mp hmem with ⟨j, hjf, hje⟩
    have hjr : j ∈ List.range' 1 254 :=
      hperm.mem_iff.mp (List.mem_of_mem_filter hjf)
    have hji : j = i := mkIp_inj_on_range subnet j i hjr hi hje
    have hcon := List.of_mem_filter hjf
    rw [hji] at hcon
    simpa using hcon
  · intro hc
    exact List.mem_map.mpr
      ⟨i, List.mem_filter.mpr ⟨hperm.mem_iff.mpr hi, by simp [hc]⟩, rfl⟩

/-- C4 witness: the ascending settlement order covers the subnet, and the host
at index 7 is recorded exactly when its connect succeeded. -/
theorem scanNetwork_probes_and_records_witness :
    (List.range' 1 254).Perm (List.range' 1 254) ∧
    (mkIp "192.168.1" 7 ∈
        ((List.range' 1 254).filter
          fun k => (fun i => if i = 7 then ProbeOutcome.connected
            else ProbeOutcome.timedOut) k == ProbeOutcome.connected).map
          (mkIp "192.168.1")
      ↔ (fun i => if i = 7 then ProbeOutcome.connected
          else ProbeOutcome.timedOut) 7 = ProbeOutcome.connected) :=
  ⟨List.Perm.refl _,
    (scanNetwork_probes_and_records
        (fun i => if i = 7 then ProbeOutcome.connected else ProbeOutcome.timedOut)
        (List.range' 1 254) "192.168.1" 500 (List.Perm.refl _)).2.2.2 7
      (by decide)⟩

/-- The two-listener scenario of the spec: only hosts 5 and 9 of the subnet
accept a connection; every other probe times out. -/
def envTwoListeners : Nat → ProbeOutcome :=
  fun i => if i = 5 ∨ i = 9 then .connected else .timedOut

/-- C5 counterexample: in the two-listener scenario on subnet 10.0.0, the value
scanNetwork resolves with is the bare array of the two responding addresses;
the scanned subnet prefix 10.0.0 is not contained in it — the spec's claim that
the result carries the subnet prefix alongside the hosts fails on the code,
which returns only the found array (the route layer adds the prefix). -/
theorem scanNetwork_result_lacks_prefix :
    scanNetwork envTwoListeners (List.range' 1 254) "10.0.0" 100 =
      .ok ["10.0.0.5", "10.0.0.9"]
    ∧ "10.0.0" ∉ ["10.0.0.5", "10.0.0.9"] := by
  constructor
  · rw [scanNetwork_found]
    have hformula :
        ((List.range' 1 254).filter
          fun k => envTwoListeners k == ProbeOutcome.connected) = [5, 9] := by
      decide
    rw [hformula]
    rfl
  · decide

/-- C5 amended: scanNetwork resolves with only the completion-ordered list of
responding hosts; the subnet prefix is not part of its return value.  In the
two-listener scenario, every settlement order covering the subnet yields
exactly the two listening addresses, up to completion order, and never the
prefix itself. -/
theorem scanNetwork_two_listeners
    (order : List Nat) (hperm : order.Perm (List.range' 1 254)) :
    scanNetwork envTwoListeners order "10.0.0" 100 =
      .ok ((order.filter fun k => envTwoListeners k == .connected).map
        (mkIp "10.0.0"))
    ∧ ((order.filter fun k => envTwoListeners k == .connected).map
        (mkIp "10.0.0")).Perm ["10.0.0.5", "10.0.0.9"]
    ∧ "10.0.0" ∉ (order.filter fun k => envTwoListeners k == .connected).map
        (mkIp "10.0.0") := by
  have hp : ((order.filter fun k => envTwoListeners k == .connected).map
      (mkIp "10.0.0")).Perm ["10.0.0.5", "10.0.0.9"] := by
    have h1 := (hperm.filter fun k => envTwoListeners k == .connected).map
      (mkIp "10.0.0")
    have h2 : (((List.range' 1 254).filter
        fun k => envTwoListeners k == .connected).map (mkIp "10.0.0")) =
        ["10.0.0.5", "10.0.0.9"] := by
      have hformula :
          ((List.range' 1 254).filter
            fun k => envTwoListeners k == ProbeOutcome.connected) = [5, 9] := by
        decide
      rw [hformula]; rfl
    exact h2 ▸ h1
  refine ⟨scanNetwork_found envTwoListeners order "10.0.0" 100, hp, ?_⟩
  intro hmem
  have := hp.mem_iff.mp hmem
  simp at this

/-- C5 witness: with the ascending settlement order, the two-listener scan
resolves with the two addresses and nothing else. -/
theorem scanNetwork_two_listeners_witness :
    (List.range' 1 254).Perm (List.range' 1 254) ∧
    scanNetwork envTwoListeners (List.range' 1 254) "10.0.0" 100 =
      .ok (((List.range' 1 254).filter
        fun k => envTwoListeners k == .connected).map (mkIp "10.0.0")) :=
  ⟨List.Perm.refl _,
    (scanNetwork_two_listeners (List.range' 1 254) (List.Perm.refl _)).1⟩

/-- C6: scanNetwork always resolves — no per-host failure ever surfaces as a
rejection — and when no host of the scanned order accepts a connection it
resolves with the empty list. -/
theorem scanNetwork_empty_on_silence
    (env : Nat → ProbeOutcome) (order : List Nat) (subnet : String)
    (timeoutMs : Nat) :
    (∃ l, scanNetwork env order subnet timeoutMs = .ok l)
    ∧ ((∀ i ∈ order, env i ≠ .connected) →
        scanNetwork env order subnet timeoutMs = .ok []) := by
  refine ⟨⟨_, scanNetwork_found env order subnet timeoutMs⟩, fun h => ?_⟩
  rw [scanNetwork_found]
  have hnil : (order.filter fun k => env k == .connected) = [] := by
    rw [List.filter_eq_nil_iff]
    intro a ha
    simpa using h a ha
  rw [hnil]
  rfl

/-- The all-silent scenario: every probe times out. -/
def envSilent : Nat → ProbeOutcome := fun _ => .timedOut

set_option maxRecDepth 2000 in
/-- C6 witness: scanning a subnet where every probe times out resolves with
the empty list. -/
theorem scanNetwork_empty_on_silence_witness :
    (∀ i ∈ List.range' 1 254, envSilent i ≠ ProbeOutcome.connected) ∧
    scanNetwork envSilent (List.range' 1 254) "192.168.1" 500 = .ok [] :=
  ⟨by decide,
    (scanNetwork_empty_on_silence envSilent (List.range' 1 254)
      "192.168.1" 500).2 (by decide)⟩

/-! ## Lemmas about detectSubnet -/

/-- Over a list of interfaces whose external IPv4 entries carry dotted-quad
addresses, the inner loop of detectSubnet returns the /24 prefix of the first
external IPv4 entry, and nothing when there is none. -/
theorem scanIfaceList_spec (l : List Iface)
    (hwf : ∀ i ∈ l, (!i.internal && i.family == "IPv4") = true →
      (splitOnDot i.address).length = 4) :
    scanIfaceList l =
      (l.find? fun i => !i.internal && i.family == "IPv4").map
        (fun i => specPrefix3 i.address) := by
  induction l with
  | nil => rfl
  | cons a tl ih =>
      have htl : ∀ i ∈ tl, (!i.internal && i.family == "IPv4") = true →
          (splitOnDot i.address).length = 4 :=
        fun i hi h => hwf i (List.mem_cons_of_mem a hi) h
      by_cases ha : (!a.internal && a.family == "IPv4") = true
      · have hc : (a.internal || a.family != "IPv4") = false := by
          revert ha; cases a.internal <;> simp [bne]
        have h4 := hwf a (List.mem_cons_self a tl) ha
        simp [scanIfaceList, hc, h4, specPrefix3, List.find?_cons, ha]
      · have ha' : (!a.internal && a.family == "IPv4") = false :=
          Bool.eq_false_iff.mpr ha
        have hc : (a.internal || a.family != "IPv4") = true := by
          revert ha'; cases a.internal <;> simp [bne]
        simp [scanIfaceList, hc, ih htl, List.find?_cons, ha']

/-- C7: on any interface table whose external IPv4 interfaces carry dotted-quad
addresses, detectSubnet returns the first three octets of the address of the
first non-internal IPv4 interface in iteration order, and null when no such
interface exists. -/
theorem detectSubnet_first_external_ipv4
    (tbl : List (String × List Iface)) (hwf : WellFormedIfaces tbl) :
    detectSubnet tbl =
      (specFirstExternalIPv4 tbl).map (fun i => specPrefix3 i.address)
    ∧ (specFirstExternalIPv4 tbl = none → detectSubnet tbl = none) := by
  have main : ∀ t, WellFormedIfaces t →
      detectSubnet t =
        (specFirstExternalIPv4 t).map (fun i => specPrefix3 i.address) := by
    intro t
    induction t with
    | nil => intro _; rfl
    | cons p rest ih =>
        intro hwfc
        have hp := hwfc p (List.mem_cons_self p rest)
        have hrest : WellFormedIfaces rest :=
          fun q hq => hwfc q (List.mem_cons_of_mem p hq)
        obtain ⟨name, l⟩ := p
        rcases hf : l.find? (fun i => !i.internal && i.family == "IPv4")
          with _ | iface <;>
          simp [detectSubnet, specFirstExternalIPv4,
            scanIfaceList_spec l hp, hf, ih hrest]
  refine ⟨main tbl hwf, fun h => ?_⟩
  rw [main tbl hwf, h]
  rfl

/-- A concrete interface table: an internal loopback entry first, then an
external IPv4 interface on 192.168.1.42. -/
def tblSample : List (String × List Iface) :=
  [("lo", [{ internal := true, family := "IPv4", address := "127.0.0.1" }]),
   ("eth0", [{ internal := false, family := "IPv4", address := "192.168.1.42" }])]

/-- C7 witness: the sample table is well formed and detectSubnet returns the
/24 prefix of its first external IPv4 interface. -/
theorem detectSubnet_first_external_ipv4_witness :
    WellFormedIfaces tblSample ∧
    detectSubnet tblSample =
      (specFirstExternalIPv4 tblSample).map (fun i => specPrefix3 i.address) :=
  ⟨by unfold WellFormedIfaces; decide,
    (detectSubnet_first_external_ipv4 tblSample
      (by unfold WellFormedIfaces; decide)).1⟩
